import Mathlib

/-!
Verification model of the sharded-manifest lookup bot (src/bot.py) and the
document-indexing webhook server (src/server.py).

The Python code is embedded shallowly:
* JSON values are the inductive `JValue`; Python truthiness is `truthy`.
* The Telegram transport (get_chat / get_file / download / gzip / json.loads
  pipelines) is abstracted as an environment oracle: each fetch either fails
  at a pipeline stage or yields the parsed JSON value.  This is faithful
  because every real run of the byte-level pipeline induces exactly one such
  outcome.
* The module-level caches of bot.py become an explicit `CacheState` threaded
  through the functions; wall-clock `time.time()` becomes an explicit `now`
  argument (an integer timestamp).
* Each load function additionally reports how many external fetches it
  performed, so the TTL/idempotence properties can be stated.
-/

/-- Parsed JSON values.  Numbers are modelled as integers (the data files
carry phone-number keys and string fields; no claim depends on float
rendering). -/
inductive JValue where
  | jnull : JValue
  | jbool : Bool → JValue
  | jnum : Int → JValue
  | jstr : String → JValue
  | jarr : List JValue → JValue
  | jobj : List (String × JValue) → JValue
deriving Repr

/-- Python truthiness of a JSON value: None and False are falsy, numbers are
falsy at zero, strings and containers are falsy when empty. -/
def truthy : JValue → Bool
  | .jnull => false
  | .jbool b => b
  | .jnum n => n != 0
  | .jstr s => !(s.isEmpty)
  | .jarr xs => !(xs.isEmpty)
  | .jobj fs => !(fs.isEmpty)

/-- Association-list lookup (Python dict read, first matching key). -/
def getA {α : Type} : List (String × α) → String → Option α
  | [], _ => none
  | (k2, v) :: t, k => if k2 = k then some v else getA t k

/-- Association-list write (Python dict assignment: replaces a prior
binding for the key). -/
def setA {α : Type} (l : List (String × α)) (k : String) (v : α) :
    List (String × α) :=
  (k, v) :: l.filter (fun p => p.1 ≠ k)

/-- Reading a field of a JSON value.  Returns `none` when the value is not
an object or the key is absent; the callers below turn `none` into the
error that Python raises there (KeyError / TypeError). -/
def JValue.getF : JValue → String → Option JValue
  | .jobj fs, k => getA fs k
  | _, _ => none

/-- SHARD_PREFIX constant of bot.py. -/
def SHARD_PREFIX : Nat := 4

/-- MANIFEST_CACHE_TTL constant of bot.py (seconds). -/
def MANIFEST_CACHE_TTL : Int := 600

/-- SHARD_CACHE_TTL constant of bot.py (seconds). -/
def SHARD_CACHE_TTL : Int := 600

/-- ALLOWED_USER_IDS constant of bot.py (empty: no restriction). -/
def ALLOWED_USER_IDS : List Int := []

/-- Errors a bot-side load can raise.  `badRequest` stands for
telegram.error.BadRequest (the only exception search_cmd catches);
`runtimeErr` is the RuntimeError raised when no pinned manifest exists;
`jsonError` is a json.loads failure; `gzipError` a gzip.decompress failure;
`keyError` collapses the KeyError / TypeError / AttributeError raised by
subscripting or .get on values of the wrong shape. -/
inductive BotErr where
  | badRequest : BotErr
  | runtimeErr : BotErr
  | jsonError : BotErr
  | gzipError : BotErr
  | keyError : BotErr
deriving Repr, DecidableEq

/-- Outcome of the manifest-document pipeline (get_chat, pinned message,
get_file, download, decode, json.loads): missing pinned document, transport
failure, undecodable JSON, or the parsed value. -/
inductive ManifestFetch where
  | noPinned : ManifestFetch
  | fetchFail : ManifestFetch
  | badJson : ManifestFetch
  | ok : JValue → ManifestFetch

/-- Outcome of a shard-file pipeline (get_file, download, gzip.decompress,
json.loads), keyed by the file id the manifest names. -/
inductive ShardFetch where
  | fetchFail : ShardFetch
  | badGzip : ShardFetch
  | badJson : ShardFetch
  | ok : JValue → ShardFetch

/-- The external world as bot.py sees it: what fetching the pinned manifest
yields, and what fetching each shard file id yields. -/
structure BotEnv where
  manifestDoc : ManifestFetch
  shardFile : String → ShardFetch

/-- The module-level caches of bot.py: _manifest_cache = \x7b"data": None,
"ts": 0\x7d and _shard_cache = \x7b\x7d, with entries (data, ts). -/
structure CacheState where
  manifestData : Option JValue
  manifestTs : Int
  shardCache : List (String × (JValue × Int))

/-- Initial cache state at process start. -/
def initState : CacheState := ⟨none, 0, []⟩

/-- Refresh path of load_manifest: fetch the pinned document, parse it, and
on success install it in the cache with the current timestamp.  The third
component counts external manifest fetches (always 1 on this path). -/
def refreshManifest (env : BotEnv) (now : Int) (st : CacheState) :
    Except BotErr JValue × CacheState × Nat :=
  match env.manifestDoc with
  | .noPinned => (.error .runtimeErr, st, 1)
  | .fetchFail => (.error .badRequest, st, 1)
  | .badJson => (.error .jsonError, st, 1)
  | .ok m => (.ok m, { st with manifestData := some m, manifestTs := now }, 1)

/-- load_manifest of bot.py.  The Python guard is
`if _manifest_cache["data"] and now - _manifest_cache["ts"] < MANIFEST_CACHE_TTL`:
the cached value is used only when it is truthy AND fresh; otherwise the
document is refetched. -/
def load_manifest (env : BotEnv) (now : Int) (st : CacheState) :
    Except BotErr JValue × CacheState × Nat :=
  match st.manifestData with
  | some v =>
      if truthy v && decide (now - st.manifestTs < MANIFEST_CACHE_TTL) then
        (.ok v, st, 0)
      else refreshManifest env now st
  | none => refreshManifest env now st

/-- Refresh path of load_shard (cache miss or expired entry).  Mirrors the
Python line by line: consult load_manifest; read manifest["shards"] (a
missing key or a non-object manifest raises, collapsed to keyError);
`.get(shard)` on the shards object; a falsy descriptor (absent shard id, or
an empty descriptor) returns the empty mapping without caching; otherwise
read info["file_id"] (missing or non-object raises), fetch and decompress
the shard file, parse it, and install it in the shard cache under the shard
id with the current timestamp.  The last two components count manifest
fetches and shard-file fetches. -/
def loadShardRefresh (env : BotEnv) (now : Int) (st : CacheState)
    (shard : String) : Except BotErr JValue × CacheState × Nat × Nat :=
  match load_manifest env now st with
  | (.error e, st1, mf) => (.error e, st1, mf, 0)
  | (.ok m, st1, mf) =>
    match m.getF "shards" with
    | none => (.error .keyError, st1, mf, 0)
    | some sv =>
      match sv with
      | .jobj fs =>
        match getA fs shard with
        | none => (.ok (.jobj []), st1, mf, 0)
        | some info =>
          if truthy info then
            match info.getF "file_id" with
            | none => (.error .keyError, st1, mf, 0)
            | some fidv =>
              match fidv with
              | .jstr fid =>
                match env.shardFile fid with
                | .fetchFail => (.error .badRequest, st1, mf, 1)
                | .badGzip => (.error .gzipError, st1, mf, 1)
                | .badJson => (.error .jsonError, st1, mf, 1)
                | .ok d =>
                  (.ok d,
                   { st1 with shardCache := setA st1.shardCache shard (d, now) },
                   mf, 1)
              | _ => (.error .badRequest, st1, mf, 1)
          else (.ok (.jobj []), st1, mf, 0)
      | _ => (.error .keyError, st1, mf, 0)

/-- load_shard of bot.py.  The Python guard is
`if entry and now - entry["ts"] < SHARD_CACHE_TTL`: a present cache entry is
a nonempty dict, hence always truthy, so only freshness is checked. -/
def load_shard (env : BotEnv) (now : Int) (st : CacheState) (shard : String) :
    Except BotErr JValue × CacheState × Nat × Nat :=
  match getA st.shardCache shard with
  | some (d, ts) =>
      if decide (now - ts < SHARD_CACHE_TTL) then (.ok d, st, 0, 0)
      else loadShardRefresh env now st shard
  | none => loadShardRefresh env now st shard

/-- digits_only of bot.py: re.sub removing every non-digit character
(modelled over the ASCII digits the data uses). -/
def digits_only (s : String) : String :=
  String.mk (s.toList.filter Char.isDigit)

/-- The " ".join(context.args) step of search_cmd. -/
def joinSpace (args : List String) : String :=
  String.intercalate " " args

/-- The replies search_cmd can send.  `record rec` stands for the
pretty-printed JSON of the found record. -/
inductive Reply where
  | notAuthorized : Reply
  | usage : Reply
  | invalidQuery : Reply
  | shardUnavailable : String → Reply
  | record : JValue → Reply
  | notFound : Reply

/-- search_cmd of bot.py.  Authorization check (vacuous: ALLOWED_USER_IDS is
empty), usage check, digit-normalization with the 7-digit minimum, shard
derivation as the first SHARD_PREFIX characters, load_shard with only
BadRequest caught (any other exception escapes the handler, modelled as
`.error`), and the final truthiness test `if rec:` on the looked-up record.
Returns the reply (or escaped exception), the final cache state, and the
manifest / shard fetch counts. -/
def search_cmd (env : BotEnv) (now : Int) (st : CacheState) (userId : Int)
    (args : List String) : Except BotErr Reply × CacheState × Nat × Nat :=
  if !ALLOWED_USER_IDS.isEmpty && !(ALLOWED_USER_IDS.contains userId) then
    (.ok .notAuthorized, st, 0, 0)
  else if args.isEmpty then
    (.ok .usage, st, 0, 0)
  else
    let query := digits_only (joinSpace args)
    if query.length < 7 then
      (.ok .invalidQuery, st, 0, 0)
    else
      let shard := query.take SHARD_PREFIX
      match load_shard env now st shard with
      | (.error .badRequest, st1, mf, sf) =>
          (.ok (.shardUnavailable shard), st1, mf, sf)
      | (.error e, st1, mf, sf) => (.error e, st1, mf, sf)
      | (.ok sm, st1, mf, sf) =>
        match sm with
        | .jobj fs =>
          match getA fs query with
          | some rec =>
              if truthy rec then (.ok (.record rec), st1, mf, sf)
              else (.ok .notFound, st1, mf, sf)
          | none => (.ok .notFound, st1, mf, sf)
        | _ => (.error .keyError, st1, mf, sf)

/-!  Model of src/server.py: the in-memory index filled from forwarded
gzip-JSON documents. -/

/-- Python str() of a JSON value as used for the Mobile No index key.
Scalars follow Python; the textual rendering of nested containers is
abbreviated (it never occurs in the data and no claim inspects it). -/
def pyStr : JValue → String
  | .jnull => "None"
  | .jbool true => "True"
  | .jbool false => "False"
  | .jnum n => toString n
  | .jstr s => s
  | .jarr _ => "[...]"
  | .jobj _ => "{...}"

/-- The module-level state of server.py: user_data_by_mobile,
user_data_by_email, and the processed_files set (modelled as a duplicate-free
membership list). -/
structure ServerState where
  user_data_by_mobile : List (String × JValue)
  user_data_by_email : List (String × JValue)
  processed_files : List String
deriving Repr

/-- Initial server state at process start. -/
def initServerState : ServerState := ⟨[], [], []⟩

/-- processed_files.add(filename). -/
def addProcessed (st : ServerState) (filename : String) : ServerState :=
  if filename ∈ st.processed_files then st
  else { st with processed_files := filename :: st.processed_files }

/-- Substring membership test, Python `needle in haystack` on strings. -/
def strIn (needle haystack : String) : Bool :=
  (haystack.splitOn needle).length > 1

/-- The Mobile No half of one iteration of the loop body of index_records:
a Mobile No field indexes the record under its str(). -/
def indexMobile (st : ServerState) (fs : List (String × JValue)) (r : JValue) :
    ServerState :=
  match getA fs "Mobile No" with
  | some mv =>
      { st with
        user_data_by_mobile := setA st.user_data_by_mobile (pyStr mv) r }
  | none => st

/-- One iteration of the loop body of index_records.  For an object record:
the Mobile No half runs first, then an Email Contact field that is truthy is
indexed under its lowercased text, but a truthy non-string value raises
AttributeError on .lower() — modelled as `.error` carrying the state mutated
so far (the Mobile No write has already happened).  Non-object records
follow the Python `in` operator: membership raises TypeError on scalars, and
on strings/lists a successful membership test is followed by a subscript
that raises. -/
def indexRecord (st : ServerState) (r : JValue) :
    Except ServerState ServerState :=
  match r with
  | .jobj fs =>
    let st1 := indexMobile st fs r
    match getA fs "Email Contact" with
    | some ev =>
      if truthy ev then
        match ev with
        | .jstr s =>
            .ok { st1 with
                  user_data_by_email := setA st1.user_data_by_email s.toLower r }
        | _ => .error st1
      else .ok st1
    | none => .ok st1
  | .jstr s =>
      if strIn "Mobile No" s || strIn "Email Contact" s then .error st
      else .ok st
  | .jarr _ => .error st
  | _ => .error st

/-- index_records of server.py: index each record in order, stopping at the
first raised exception (the writes made so far stay in place, and
processed_files is NOT updated); after a complete pass, add the filename to
processed_files. -/
def index_records (st : ServerState) (records : List JValue)
    (filename : String) : Except ServerState ServerState :=
  match records with
  | [] => .ok (addProcessed st filename)
  | r :: rest =>
    match indexRecord st r with
    | .error st1 => .error st1
    | .ok st1 => index_records st1 rest filename

/-- Python str.endswith, evaluated over the character list (String.endsWith
of the Lean core is byte-position based and does not reduce; the two agree
on all strings). -/
def pyEndsWith (s suffix : String) : Bool :=
  suffix.toList.isSuffixOf s.toList

/-- A Telegram document attachment as process_document_message reads it. -/
structure TgDocument where
  file_name : String
  file_id : String

/-- process_document_message of server.py.  `fetch` is the
get_file / download / gzip / json.load pipeline for a file id: `.error` for
any failure in it, `.ok v` for the parsed JSON.  A message without a
document or with a name not ending in .json.gz returns -1; an
already-processed file name returns 0 before any download; a parsed
non-list returns -1; an exception during indexing is caught and returns -1
with the partial writes kept; a full pass returns the record count. -/
def process_document_message (st : ServerState) (doc : Option TgDocument)
    (fetch : String → Except Unit JValue) : Int × ServerState :=
  match doc with
  | none => (-1, st)
  | some d =>
    if pyEndsWith d.file_name ".json.gz" then
      if d.file_name ∈ st.processed_files then (0, st)
      else
        match fetch d.file_id with
        | .error _ => (-1, st)
        | .ok v =>
          match v with
          | .jarr records =>
            match index_records st records d.file_name with
            | .ok st1 => ((records.length : Int), st1)
            | .error st1 => (-1, st1)
          | _ => (-1, st)
    else (-1, st)

/-!  Concrete environments used to witness the theorems below. -/

/-- Environment in which every external fetch fails. -/
def env0 : BotEnv := { manifestDoc := .fetchFail, shardFile := fun _ => .fetchFail }

/-- Manifest of the round-trip scenario: the shards mapping assigns file
handle h1 to shard id 9711. -/
def mAlice : JValue :=
  .jobj [("shards", .jobj [("9711", .jobj [("file_id", .jstr "h1")])])]

/-- Shard content of the round-trip scenario. -/
def dAlice : JValue := .jobj [("9711102028", .jobj [("name", .jstr "Alice")])]

/-- Environment of the round-trip scenario. -/
def envAlice : BotEnv :=
  { manifestDoc := .ok mAlice,
    shardFile := fun fid => if fid = "h1" then .ok dAlice else .fetchFail }

/-- Shard content holding an empty, hence falsy, record under the key. -/
def dEmptyRec : JValue := .jobj [("9711102028", .jobj [])]

/-- Environment whose shard file carries the empty record. -/
def envEmptyRec : BotEnv :=
  { manifestDoc := .ok mAlice,
    shardFile := fun fid => if fid = "h1" then .ok dEmptyRec else .fetchFail }

/-- Environment whose pinned document is the empty JSON object. -/
def envEmptyManifest : BotEnv :=
  { manifestDoc := .ok (.jobj []), shardFile := fun _ => .fetchFail }

/-- Environment whose pinned document is valid JSON but has no shards
field. -/
def envNoShards : BotEnv :=
  { manifestDoc := .ok (.jobj [("version", .jnum 1)]),
    shardFile := fun _ => .fetchFail }

/-- Environment whose pinned document is not valid JSON. -/
def envBadJson : BotEnv :=
  { manifestDoc := .badJson, shardFile := fun _ => .fetchFail }

/-!  Helper lemmas shared by the claim theorems. -/

/-- Writing a key and reading it back yields the written value. -/
theorem getA_setA_self {α : Type} (l : List (String × α)) (k : String) (v : α) :
    getA (setA l k v) k = some v := by
  simp [getA, setA]

/-- load_manifest never touches the shard cache. -/
theorem load_manifest_shardCache (env : BotEnv) (now : Int) (st : CacheState) :
    (load_manifest env now st).2.1.shardCache = st.shardCache := by
  unfold load_manifest refreshManifest
  split
  · split
    · rfl
    · split <;> rfl
  · split <;> rfl

/-- C2: a raw query whose digit-only normalization has fewer than 7 digits
is rejected with the invalid-query usage reply; the caches are untouched and
neither the manifest nor any shard is fetched. -/
theorem search_cmd_invalid_query (env : BotEnv) (now : Int) (st : CacheState)
    (userId : Int) (args : List String) (hne : args.isEmpty = false)
    (hlen : (digits_only (joinSpace args)).length < 7) :
    search_cmd env now st userId args = (.ok .invalidQuery, st, 0, 0) := by
  simp [search_cmd, ALLOWED_USER_IDS, hne, hlen]

/-- Witness for the C2 theorem at the query 123. -/
theorem search_cmd_invalid_query_witness :
    search_cmd env0 0 initState 1 ["123"] = (.ok .invalidQuery, initState, 0, 0) :=
  search_cmd_invalid_query env0 0 initState 1 ["123"] rfl (by decide)

/-- C3: for every accepted query the normalized key is the raw query with
every non-digit character removed, the derived shard id is the 4-character
prefix of that key, and the search consults exactly that shard with exactly
that key: whenever load_shard at the derived shard id yields a shard
object, the reply is decided by looking up the full normalized key in it. -/
theorem search_cmd_normalization (env : BotEnv) (now : Int) (st : CacheState)
    (userId : Int) (args : List String) (hne : args.isEmpty = false)
    (hlen : ¬ (digits_only (joinSpace args)).length < 7) :
    (digits_only (joinSpace args)).toList
        = (joinSpace args).toList.filter Char.isDigit
    ∧ ((digits_only (joinSpace args)).take SHARD_PREFIX).length = SHARD_PREFIX
    ∧ (∀ fs st1 mf sf,
        load_shard env now st ((digits_only (joinSpace args)).take SHARD_PREFIX)
          = (.ok (.jobj fs), st1, mf, sf) →
        search_cmd env now st userId args =
          (match getA fs (digits_only (joinSpace args)) with
           | some rec =>
               if truthy rec then (.ok (.record rec), st1, mf, sf)
               else (.ok .notFound, st1, mf, sf)
           | none => (.ok .notFound, st1, mf, sf))) := by
  refine ⟨rfl, ?_, ?_⟩
  · rw [String.take_eq]
    show ((digits_only (joinSpace args)).1.take SHARD_PREFIX).length = SHARD_PREFIX
    rw [List.length_take]
    have h2 : (digits_only (joinSpace args)).1.length ≥ 7 := Nat.le_of_not_lt hlen
    show min SHARD_PREFIX (digits_only (joinSpace args)).1.length = SHARD_PREFIX
    unfold SHARD_PREFIX
    omega
  · intro fs st1 mf sf h
    simp [search_cmd, ALLOWED_USER_IDS, hne, hlen, h]

/-- Witness for the C3 theorem at the round-trip query. -/
theorem search_cmd_normalization_witness :
    (digits_only (joinSpace ["+97-1110-2028"])).toList
        = (joinSpace ["+97-1110-2028"]).toList.filter Char.isDigit
    ∧ ((digits_only (joinSpace ["+97-1110-2028"])).take SHARD_PREFIX).length
        = SHARD_PREFIX :=
  ⟨(search_cmd_normalization envAlice 0 initState 1 ["+97-1110-2028"] rfl
      (by decide)).1,
   (search_cmd_normalization envAlice 0 initState 1 ["+97-1110-2028"] rfl
      (by decide)).2.1⟩

/-- C1 counterexample: the manifest assigns handle h1 to shard 9711 and the
shard file maps the key 9711102028 (the digit-only normalization of the
query, 10 digits, shard prefix 9711) to a record, namely the empty object;
yet lookup replies Not found instead of returning that record, because
search_cmd tests the record for Python truthiness before replying. -/
theorem roundtrip_counterexample :
    envEmptyRec.manifestDoc = .ok mAlice
    ∧ envEmptyRec.shardFile "h1" = .ok (.jobj [("9711102028", .jobj [])])
    ∧ digits_only (joinSpace ["+97-1110-2028"]) = "9711102028"
    ∧ (search_cmd envEmptyRec 0 initState 1 ["+97-1110-2028"]).1 = .ok .notFound
    ∧ (search_cmd envEmptyRec 0 initState 1 ["+97-1110-2028"]).1
        ≠ .ok (.record (.jobj [])) := by
  refine ⟨rfl, rfl, rfl, rfl, ?_⟩
  intro h
  have h2 : (Except.ok Reply.notFound : Except BotErr Reply)
      = .ok (.record (.jobj [])) := h
  injection h2 with h3
  exact Reply.noConfusion h3

/-- C1 amended: round-trip retrieval for truthy records.  Starting from
empty caches, if the manifest names a truthy descriptor with a file id for
the shard derived from the query, the shard file parses to an object, and
that object maps the full normalized key to a truthy (non-empty) record,
then lookup returns exactly that record. -/
theorem roundtrip_lookup (env : BotEnv) (now : Int) (userId : Int)
    (args : List String) (m info rec : JValue)
    (sv ds : List (String × JValue)) (fid : String)
    (hne : args.isEmpty = false)
    (hlen : ¬ (digits_only (joinSpace args)).length < 7)
    (hman : env.manifestDoc = .ok m)
    (hsh : m.getF "shards" = some (.jobj sv))
    (hinfo : getA sv ((digits_only (joinSpace args)).take SHARD_PREFIX)
        = some info)
    (hti : truthy info = true)
    (hfid : info.getF "file_id" = some (.jstr fid))
    (hfile : env.shardFile fid = .ok (.jobj ds))
    (hrec : getA ds (digits_only (joinSpace args)) = some rec)
    (htr : truthy rec = true) :
    (search_cmd env now initState userId args).1 = .ok (.record rec) := by
  simp [search_cmd, ALLOWED_USER_IDS, hne, hlen, load_shard, initState, getA,
        loadShardRefresh, load_manifest, refreshManifest, hman, hsh, hinfo,
        hti, hfid, hfile, hrec, htr]

/-- Witness for the amended C1 theorem: the Alice scenario. -/
theorem roundtrip_lookup_witness :
    (search_cmd envAlice 0 initState 1 ["+97-1110-2028"]).1
      = .ok (.record (.jobj [("name", .jstr "Alice")])) :=
  roundtrip_lookup envAlice 0 1 ["+97-1110-2028"] mAlice
    (.jobj [("file_id", .jstr "h1")]) (.jobj [("name", .jstr "Alice")])
    [("9711", .jobj [("file_id", .jstr "h1")])]
    [("9711102028", .jobj [("name", .jstr "Alice")])] "h1"
    rfl (by decide) rfl rfl rfl rfl rfl rfl rfl rfl

/-- C4: when a shard id is absent from the manifest, load_shard returns the
empty mapping without error, performs no shard-file fetch, and installs no
cache entry for the shard; hence on a later call whose manifest resolution
does name the shard, the shard is fetched and cached at once, with nothing
blocking it. -/
theorem get_shard_absent (env : BotEnv) (now : Int) (st : CacheState)
    (shard : String) (m : JValue) (sv : List (String × JValue))
    (st1 : CacheState) (mf : Nat)
    (hmiss : getA st.shardCache shard = none)
    (hman : load_manifest env now st = (.ok m, st1, mf))
    (hsh : m.getF "shards" = some (.jobj sv))
    (habs : getA sv shard = none) :
    load_shard env now st shard = (.ok (.jobj []), st1, mf, 0)
    ∧ st1.shardCache = st.shardCache
    ∧ (∀ (env2 : BotEnv) (now2 : Int) (m2 info d : JValue)
         (sv2 : List (String × JValue)) (fid : String)
         (st2 : CacheState) (mf2 : Nat),
        load_manifest env2 now2 st1 = (.ok m2, st2, mf2) →
        m2.getF "shards" = some (.jobj sv2) →
        getA sv2 shard = some info → truthy info = true →
        info.getF "file_id" = some (.jstr fid) →
        env2.shardFile fid = .ok d →
        load_shard env2 now2 st1 shard =
          (.ok d,
           { st2 with shardCache := setA st2.shardCache shard (d, now2) },
           mf2, 1)
        ∧ getA (setA st2.shardCache shard (d, now2)) shard = some (d, now2)) := by
  have hpres : st1.shardCache = st.shardCache := by
    have := load_manifest_shardCache env now st
    rw [hman] at this
    exact this
  refine ⟨?_, hpres, ?_⟩
  · simp [load_shard, hmiss, loadShardRefresh, hman, hsh, habs]
  · intro env2 now2 m2 info d sv2 fid st2 mf2 hman2 hsh2 hinfo hti hfid hfile
    have hmiss1 : getA st1.shardCache shard = none := by rw [hpres]; exact hmiss
    constructor
    · simp [load_shard, hmiss1, loadShardRefresh, hman2, hsh2, hinfo, hti,
            hfid, hfile]
    · exact getA_setA_self _ _ _

/-- Witness for the C4 theorem: shard 0000 is absent from the Alice
manifest, so the load returns the empty mapping and caches nothing. -/
theorem get_shard_absent_witness :
    load_shard envAlice 0 initState "0000"
      = (.ok (.jobj []), ⟨some mAlice, 0, []⟩, 1, 0)
    ∧ (⟨some mAlice, 0, []⟩ : CacheState).shardCache = initState.shardCache :=
  ⟨(get_shard_absent envAlice 0 initState "0000" mAlice
      [("9711", .jobj [("file_id", .jstr "h1")])] ⟨some mAlice, 0, []⟩ 1
      rfl rfl rfl rfl).1,
   (get_shard_absent envAlice 0 initState "0000" mAlice
      [("9711", .jobj [("file_id", .jstr "h1")])] ⟨some mAlice, 0, []⟩ 1
      rfl rfl rfl rfl).2.1⟩

/-- C5 counterexample: the first get_manifest fetches and caches the empty
JSON object; the second call, at the same instant (age 0, well inside the
600s TTL), still performs a fetch (count 1, not 0), because the freshness
guard tests the cached value for Python truthiness and the empty object is
falsy. -/
theorem cache_idempotence_counterexample :
    (load_manifest envEmptyManifest 0 initState).2.1.manifestData
        = some (.jobj [])
    ∧ (load_manifest envEmptyManifest 0 initState).2.2 = 1
    ∧ (load_manifest envEmptyManifest 0
         (load_manifest envEmptyManifest 0 initState).2.1).2.2 = 1 :=
  ⟨rfl, rfl, rfl⟩

/-- C5 amended: within the TTL window a cached truthy manifest value and
any cached shard value are returned directly with zero fetches; the
truthiness proviso is necessary, since a cached falsy manifest (such as the
empty object) is refetched even when fresh. -/
theorem cache_idempotent_within_ttl :
    (∀ (env : BotEnv) (now : Int) (st : CacheState) (v : JValue),
       st.manifestData = some v → truthy v = true →
       now - st.manifestTs < MANIFEST_CACHE_TTL →
       load_manifest env now st = (.ok v, st, 0))
    ∧ (∀ (env : BotEnv) (now : Int) (st : CacheState) (sid : String)
         (d : JValue) (ts : Int),
       getA st.shardCache sid = some (d, ts) →
       now - ts < SHARD_CACHE_TTL →
       load_shard env now st sid = (.ok d, st, 0, 0)) := by
  constructor
  · intro env now st v hv htr hfresh
    simp [load_manifest, hv, htr, hfresh]
  · intro env now st sid d ts hc hfresh
    simp [load_shard, hc, hfresh]

/-- Witness for the amended C5 theorem: a fresh truthy manifest and a fresh
shard entry are served from cache with no fetch. -/
theorem cache_idempotent_within_ttl_witness :
    load_manifest env0 10 ⟨some mAlice, 0, []⟩
      = (.ok mAlice, ⟨some mAlice, 0, []⟩, 0)
    ∧ load_shard env0 10 ⟨none, 0, [("9711", (dAlice, 0))]⟩ "9711"
      = (.ok dAlice, ⟨none, 0, [("9711", (dAlice, 0))]⟩, 0, 0) :=
  ⟨cache_idempotent_within_ttl.1 env0 10 ⟨some mAlice, 0, []⟩ mAlice rfl rfl
     (by decide),
   cache_idempotent_within_ttl.2 env0 10 ⟨none, 0, [("9711", (dAlice, 0))]⟩
     "9711" dAlice 0 rfl (by decide)⟩

/-- C6: once a cache entry's age has reached the TTL, the next call performs
exactly one refetch of that entry, replaces it, and returns the newly
fetched mapping even when it differs from the previously cached content
(the old value v, respectively d0, is unconstrained). -/
theorem cache_refetch_after_ttl :
    (∀ (env : BotEnv) (now : Int) (st : CacheState) (v m : JValue),
       st.manifestData = some v →
       MANIFEST_CACHE_TTL ≤ now - st.manifestTs →
       env.manifestDoc = .ok m →
       load_manifest env now st =
         (.ok m, { st with manifestData := some m, manifestTs := now }, 1))
    ∧ (∀ (env : BotEnv) (now : Int) (st : CacheState) (sid : String)
         (d0 m info d : JValue) (ts0 : Int) (st1 : CacheState) (mf : Nat)
         (sv : List (String × JValue)) (fid : String),
       getA st.shardCache sid = some (d0, ts0) →
       SHARD_CACHE_TTL ≤ now - ts0 →
       load_manifest env now st = (.ok m, st1, mf) →
       m.getF "shards" = some (.jobj sv) →
       getA sv sid = some info → truthy info = true →
       info.getF "file_id" = some (.jstr fid) →
       env.shardFile fid = .ok d →
       load_shard env now st sid =
         (.ok d, { st1 with shardCache := setA st1.shardCache sid (d, now) },
          mf, 1)
       ∧ getA (setA st1.shardCache sid (d, now)) sid = some (d, now)) := by
  constructor
  · intro env now st v m hv hstale hm
    have hnot : ¬ (now - st.manifestTs < MANIFEST_CACHE_TTL) := by omega
    simp [load_manifest, hv, hnot, refreshManifest, hm]
  · intro env now st sid d0 m info d ts0 st1 mf sv fid hc hstale hman hsh
      hinfo hti hfid hfile
    have hnot : ¬ (now - ts0 < SHARD_CACHE_TTL) := by omega
    refine ⟨?_, getA_setA_self _ _ _⟩
    simp [load_shard, hc, hnot, loadShardRefresh, hman, hsh, hinfo, hti,
          hfid, hfile]

/-- Witness for the C6 theorem: at age exactly 600 both a stale manifest and
a stale shard entry are refetched once and replaced with different content. -/
theorem cache_refetch_after_ttl_witness :
    load_manifest envAlice 600 ⟨some (.jobj [("old", .jnull)]), 0, []⟩
      = (.ok mAlice, ⟨some mAlice, 600, []⟩, 1)
    ∧ load_shard envAlice 600
        ⟨some mAlice, 550, [("9711", (.jobj [("stale", .jnull)], 0))]⟩ "9711"
      = (.ok dAlice,
         ⟨some mAlice, 550, [("9711", (dAlice, 600))]⟩, 0, 1) :=
  ⟨cache_refetch_after_ttl.1 envAlice 600 ⟨some (.jobj [("old", .jnull)]), 0, []⟩
     (.jobj [("old", .jnull)]) mAlice rfl (by decide) rfl,
   (cache_refetch_after_ttl.2 envAlice 600
     ⟨some mAlice, 550, [("9711", (.jobj [("stale", .jnull)], 0))]⟩ "9711"
     (.jobj [("stale", .jnull)]) mAlice (.jobj [("file_id", .jstr "h1")])
     dAlice 0 ⟨some mAlice, 550, [("9711", (.jobj [("stale", .jnull)], 0))]⟩ 0
     [("9711", .jobj [("file_id", .jstr "h1")])] "h1"
     rfl (by decide) rfl rfl rfl rfl rfl rfl).1⟩

/-- Failure of the shard refresh path leaves the shard cache untouched. -/
theorem loadShardRefresh_error_shardCache (env : BotEnv) (now : Int)
    (st : CacheState) (sid : String) (e : BotErr) (st2 : CacheState)
    (mfn sfn : Nat)
    (h : loadShardRefresh env now st sid = (.error e, st2, mfn, sfn)) :
    st2.shardCache = st.shardCache := by
  have hpres := load_manifest_shardCache env now st
  unfold loadShardRefresh at h
  split at h <;> rename_i heq <;> rw [heq] at hpres
  · cases h
    exact hpres
  · repeat' split at h
    all_goals first
      | (cases h; exact hpres)
      | exact Except.noConfusion (congrArg Prod.fst h)

/-- C7: atomicity of cache refresh on failure, in four parts.  First, a
failing load_manifest returns the state exactly as it was.  Second, a
failing load_shard leaves the shard cache exactly as it was.  Third and
fourth, a stale entry is never served: once its age reaches the TTL,
load_manifest is the refresh outcome and load_shard is the shard-refresh
outcome, so if the refresh fails the call fails rather than returning the
stale value (which by the first two parts also stays in place). -/
theorem cache_failure_atomicity :
    (∀ (env : BotEnv) (now : Int) (st : CacheState) (e : BotErr)
       (st2 : CacheState) (n : Nat),
       load_manifest env now st = (.error e, st2, n) → st2 = st)
    ∧ (∀ (env : BotEnv) (now : Int) (st : CacheState) (sid : String)
         (e : BotErr) (st2 : CacheState) (mfn sfn : Nat),
       load_shard env now st sid = (.error e, st2, mfn, sfn) →
       st2.shardCache = st.shardCache)
    ∧ (∀ (env : BotEnv) (now : Int) (st : CacheState) (v : JValue),
       st.manifestData = some v →
       MANIFEST_CACHE_TTL ≤ now - st.manifestTs →
       load_manifest env now st = refreshManifest env now st)
    ∧ (∀ (env : BotEnv) (now : Int) (st : CacheState) (sid : String)
         (d0 : JValue) (ts0 : Int),
       getA st.shardCache sid = some (d0, ts0) →
       SHARD_CACHE_TTL ≤ now - ts0 →
       load_shard env now st sid = loadShardRefresh env now st sid) := by
  refine ⟨?_, ?_, ?_, ?_⟩
  · intro env now st e st2 n h
    unfold load_manifest refreshManifest at h
    split at h
    · split at h
      · exact absurd h (by simp)
      · split at h <;> simp_all
    · split at h <;> simp_all
  · intro env now st sid e st2 mfn sfn h
    unfold load_shard at h
    split at h
    · split at h
      · exact absurd h (by simp)
      · exact loadShardRefresh_error_shardCache env now st sid e st2 mfn sfn h
    · exact loadShardRefresh_error_shardCache env now st sid e st2 mfn sfn h
  · intro env now st v hv hstale
    have hnot : ¬ (now - st.manifestTs < MANIFEST_CACHE_TTL) := by omega
    simp [load_manifest, hv, hnot]
  · intro env now st sid d0 ts0 hc hstale
    have hnot : ¬ (now - ts0 < SHARD_CACHE_TTL) := by omega
    simp [load_shard, hc, hnot]

/-- Witness for the C7 theorem: with every fetch failing, a load over a
stale manifest and a stale shard entry errors out and leaves both caches
exactly as they were. -/
theorem cache_failure_atomicity_witness :
    load_manifest env0 600 ⟨some mAlice, 0, []⟩
      = refreshManifest env0 600 ⟨some mAlice, 0, []⟩
    ∧ load_shard env0 600 ⟨some mAlice, 0, [("9711", (dAlice, 0))]⟩ "9711"
      = loadShardRefresh env0 600 ⟨some mAlice, 0, [("9711", (dAlice, 0))]⟩
          "9711"
    ∧ (⟨some mAlice, 0, []⟩ : CacheState) = ⟨some mAlice, 0, []⟩ :=
  ⟨cache_failure_atomicity.2.2.1 env0 600 ⟨some mAlice, 0, []⟩ mAlice rfl
     (by decide),
   cache_failure_atomicity.2.2.2 env0 600
     ⟨some mAlice, 0, [("9711", (dAlice, 0))]⟩ "9711" dAlice 0 rfl (by decide),
   cache_failure_atomicity.1 env0 600 ⟨some mAlice, 0, []⟩ .badRequest
     ⟨some mAlice, 0, []⟩ 1 rfl⟩

/-- C8 counterexample: a fetched manifest that is valid JSON but lacks the
shards field is returned by get_manifest and installed in the cache — the
shard-mapping shape is never validated, contradicting the claim that such a
document fails with ParseError and is never returned or cached. -/
theorem manifest_shape_counterexample :
    envNoShards.manifestDoc = .ok (.jobj [("version", .jnum 1)])
    ∧ (JValue.jobj [("version", .jnum 1)]).getF "shards" = none
    ∧ (load_manifest envNoShards 5 initState).1
        = .ok (.jobj [("version", .jnum 1)])
    ∧ (load_manifest envNoShards 5 initState).2.1.manifestData
        = some (.jobj [("version", .jnum 1)]) :=
  ⟨rfl, rfl, rfl, rfl⟩

/-- C8 amended: a manifest document that is not valid JSON makes
get_manifest fail with the parse error and caches nothing; but the
shard-mapping shape is not validated — a valid JSON document lacking the
shards mapping is returned and cached (see the counterexample), and the
failure surfaces only when a shard load consults it, as a key error. -/
theorem manifest_parse_behavior :
    (∀ (env : BotEnv) (now : Int) (st : CacheState),
       st.manifestData = none → env.manifestDoc = .badJson →
       load_manifest env now st = (.error .jsonError, st, 1))
    ∧ (∀ (env : BotEnv) (now : Int) (st : CacheState) (sid : String)
         (m : JValue) (st1 : CacheState) (mf : Nat),
       getA st.shardCache sid = none →
       load_manifest env now st = (.ok m, st1, mf) →
       m.getF "shards" = none →
       load_shard env now st sid = (.error .keyError, st1, mf, 0)) := by
  constructor
  · intro env now st hd hbad
    simp [load_manifest, hd, refreshManifest, hbad]
  · intro env now st sid m st1 mf hmiss hman hsh
    simp [load_shard, hmiss, loadShardRefresh, hman, hsh]

/-- Witness for the amended C8 theorem: undecodable JSON errors without
caching, and a shards-less manifest makes the next shard load raise. -/
theorem manifest_parse_behavior_witness :
    load_manifest envBadJson 0 initState = (.error .jsonError, initState, 1)
    ∧ load_shard envNoShards 0 initState "9711"
      = (.error .keyError,
         ⟨some (.jobj [("version", .jnum 1)]), 0, []⟩, 1, 0) :=
  ⟨manifest_parse_behavior.1 envBadJson 0 initState rfl rfl,
   manifest_parse_behavior.2 envNoShards 0 initState "9711"
     (.jobj [("version", .jnum 1)])
     ⟨some (.jobj [("version", .jnum 1)]), 0, []⟩ 1 rfl rfl rfl⟩

/-- C9: when the loaded shard mapping contains the normalized query as a key
but the stored record is falsy (for instance the empty object), search_cmd
replies Not found rather than returning the record. -/
theorem search_cmd_falsy_record (env : BotEnv) (now : Int) (st : CacheState)
    (userId : Int) (args : List String) (st1 : CacheState) (mf sf : Nat)
    (fs : List (String × JValue)) (rec : JValue)
    (hne : args.isEmpty = false)
    (hlen : ¬ (digits_only (joinSpace args)).length < 7)
    (hload : load_shard env now st ((digits_only (joinSpace args)).take SHARD_PREFIX)
        = (.ok (.jobj fs), st1, mf, sf))
    (hget : getA fs (digits_only (joinSpace args)) = some rec)
    (hfalsy : truthy rec = false) :
    search_cmd env now st userId args = (.ok .notFound, st1, mf, sf) := by
  simp [search_cmd, ALLOWED_USER_IDS, hne, hlen, hload, hget, hfalsy]

/-- Witness for the C9 theorem: a cached shard maps the key to the empty
record and the search replies Not found. -/
theorem search_cmd_falsy_record_witness :
    search_cmd env0 0 ⟨none, 0, [("9711", (dEmptyRec, 0))]⟩ 1
      ["+97-1110-2028"]
      = (.ok .notFound, ⟨none, 0, [("9711", (dEmptyRec, 0))]⟩, 0, 0) :=
  search_cmd_falsy_record env0 0 ⟨none, 0, [("9711", (dEmptyRec, 0))]⟩ 1
    ["+97-1110-2028"] ⟨none, 0, [("9711", (dEmptyRec, 0))]⟩ 0 0
    [("9711102028", .jobj [])] (.jobj [])
    rfl (by decide) rfl rfl rfl

/-- The Mobile No half never touches processed_files. -/
theorem indexMobile_processed (st : ServerState)
    (fs : List (String × JValue)) (r : JValue) :
    (indexMobile st fs r).processed_files = st.processed_files := by
  unfold indexMobile
  split <;> rfl

/-- One indexing step never touches processed_files, whether it completes or
raises. -/
theorem indexRecord_processed (st : ServerState) (r : JValue)
    (st' : ServerState)
    (h : indexRecord st r = .ok st' ∨ indexRecord st r = .error st') :
    st'.processed_files = st.processed_files := by
  rcases h with h | h <;>
    (unfold indexRecord at h; repeat' split at h) <;>
    first
      | (cases h; simp [indexMobile_processed])
      | exact Except.noConfusion h

/-- A completed index_records pass only ever adds the processed file's own
name to processed_files. -/
theorem index_records_ok_processed (records : List JValue) :
    ∀ (st : ServerState) (filename : String) (st' : ServerState),
      index_records st records filename = .ok st' →
      ∀ f ∈ st'.processed_files, f = filename ∨ f ∈ st.processed_files := by
  induction records with
  | nil =>
    intro st filename st' h f hf
    cases h
    unfold addProcessed at hf
    split at hf
    · exact Or.inr hf
    · rcases List.mem_cons.mp hf with h1 | h1
      · exact Or.inl h1
      · exact Or.inr h1
  | cons r rest ih =>
    intro st filename st' h f hf
    unfold index_records at h
    split at h <;> rename_i heq
    · exact Except.noConfusion h
    · rcases ih _ filename st' h f hf with h1 | h1
      · exact Or.inl h1
      · exact Or.inr
          (by rw [indexRecord_processed st r _ (Or.inl heq)] at h1; exact h1)

/-- An index_records pass aborted by an exception leaves processed_files
unchanged. -/
theorem index_records_err_processed (records : List JValue) :
    ∀ (st : ServerState) (filename : String) (st' : ServerState),
      index_records st records filename = .error st' →
      st'.processed_files = st.processed_files := by
  induction records with
  | nil =>
    intro st filename st' h
    exact Except.noConfusion h
  | cons r rest ih =>
    intro st filename st' h
    unfold index_records at h
    split at h <;> rename_i heq
    · cases h
      exact indexRecord_processed st r st' (Or.inr heq)
    · rw [ih _ filename st' h]
      exact indexRecord_processed st r _ (Or.inl heq)

/-- Reachability invariant backing the C10 hypothesis: every name that
process_document_message ever puts into processed_files ends in .json.gz,
so in any reachable server state all members of processed_files carry that
suffix. -/
theorem processed_files_closed (st : ServerState) (doc : Option TgDocument)
    (fetch : String → Except Unit JValue)
    (hinv : ∀ f ∈ st.processed_files, pyEndsWith f ".json.gz" = true) :
    ∀ f ∈ (process_document_message st doc fetch).2.processed_files,
      pyEndsWith f ".json.gz" = true := by
  intro f hf
  cases doc with
  | none => exact hinv f hf
  | some d =>
    simp only [process_document_message] at hf
    split at hf <;> rename_i hext
    · split at hf <;> rename_i hmem
      · exact hinv f hf
      · split at hf
        · exact hinv f hf
        · split at hf
          · split at hf <;> rename_i hidx
            · rcases index_records_ok_processed _ _ _ _ hidx f hf with h1 | h1
              · rw [h1]
                exact hext
              · exact hinv f h1
            · rw [index_records_err_processed _ _ _ _ hidx] at hf
              exact hinv f hf
          · exact hinv f hf
    · exact hinv f hf

/-- C10: a document whose file name is already in processed_files (all of
whose members end in .json.gz in any reachable state, by the closure
theorem above) is skipped before any download: process_document_message
returns 0 and leaves the mobile index, the email index, and processed_files
exactly as they were, whatever content the file would have fetched. -/
theorem process_document_already_processed (st : ServerState)
    (fetch : String → Except Unit JValue) (d : TgDocument)
    (hext : pyEndsWith d.file_name ".json.gz" = true)
    (hmem : d.file_name ∈ st.processed_files) :
    process_document_message st (some d) fetch = (0, st) := by
  simp [process_document_message, hext, hmem]

/-- Witness for the C10 theorem: re-forwarding data.json.gz, now resolving
to different content, returns 0 and changes nothing. -/
theorem process_document_already_processed_witness :
    process_document_message
      ⟨[("123", .jobj [("Mobile No", .jstr "123")])], [], ["data.json.gz"]⟩
      (some ⟨"data.json.gz", "file9"⟩)
      (fun _ => .ok (.jarr [.jobj [("Mobile No", .jstr "999")]]))
      = (0, ⟨[("123", .jobj [("Mobile No", .jstr "123")])], [],
             ["data.json.gz"]⟩) :=
  process_document_already_processed
    ⟨[("123", .jobj [("Mobile No", .jstr "123")])], [], ["data.json.gz"]⟩
    (fun _ => .ok (.jarr [.jobj [("Mobile No", .jstr "999")]]))
    ⟨"data.json.gz", "file9"⟩ rfl (List.mem_singleton.mpr rfl)
